import Mathlib

/-!
# Verification of the PerkUp WebSocket notification subsystem

Shallow embedding of `src/services/websocketService.js` and
`src/handlers/websocket/connectHandler.js`.

The DynamoDB connections table is modelled as a list of `Connection`
rows.  The push transport (API Gateway `postToConnection`) is modelled
as an explicit outcome function passed in as a parameter: the embedding
is deterministic in it.  Timestamps are naturals (milliseconds since
epoch, as `Date.now()` returns).
-/

namespace PerkUp

/-- One row of the `perkup-websocket-connections` table, as written by
`connectHandler.js` and read by `websocketService.js`.  `subscriptions`
is `Option` because rows written by the connect handler carry no
`subscriptions` attribute at all (the service reads
`connection.subscriptions || []`). -/
structure Connection where
  connectionId : String
  userId : String
  domainName : String
  stage : String
  connectedAt : Nat
  ttl : Nat
  status : String
  lastActivity : Nat
  subscriptions : Option (List String)
deriving Repr, DecidableEq

/-- The registry: content of the DynamoDB connections table. -/
abbrev Registry := List Connection

/-- JS `connection.subscriptions || []`. -/
def subsOrEmpty (c : Connection) : List String :=
  c.subscriptions.getD []

/-- `getAllActiveConnections`: scan filtered by `#status = 'connected'`
(websocketService.js lines 164-177). -/
def getAllActiveConnections (reg : Registry) : List Connection :=
  reg.filter (fun c => c.status == "connected")

/-- `getUserConnections`: scan filtered by
`userId = :userId AND #status = :status` (lines 145-159). -/
def getUserConnections (userId : String) (reg : Registry) : List Connection :=
  reg.filter (fun c => c.userId == userId && c.status == "connected")

/-- `getSubscriberConnections` (lines 182-190): keep the active
connections having at least one topic in common with `topics`. -/
def getSubscriberConnections (topics : List String) (reg : Registry) :
    List Connection :=
  (getAllActiveConnections reg).filter
    (fun connection => topics.any (fun topic => (subsOrEmpty connection).contains topic))

/-- `cleanupConnection` (lines 230-242): DynamoDB `delete` keyed by
`connectionId`.  Deleting an absent key is not an error, and the
surrounding try/catch absorbs any error, so the model is total. -/
def cleanupConnection (connectionId : String) (reg : Registry) : Registry :=
  reg.filter (fun c => c.connectionId != connectionId)

/-- Result of one `postToConnection` attempt, as the catch block of a
task in `sendToConnections` observes it: success, or an error that may
carry a `statusCode`. -/
inductive PushResult where
  | delivered
  | failed (statusCode : Option Nat)
deriving Repr, DecidableEq

/-- Deterministic model of the push transport: the outcome each
connection's single attempt settles with, for a given notification.
`α` is the (opaque, serialised) notification type. -/
abbrev Transport (α : Type) := α → Connection → PushResult

/-- How the task for one connection settles (lines 200-222): every task
catches its own error, so every task settles; a 410 error is classified
as "gone" and additionally reaps the row. -/
inductive Outcome where
  | sent
  | failedGone
  | failedOther (statusCode : Option Nat)
deriving Repr, DecidableEq

/-- Settled outcome of the task for one connection: a function of that
connection's own push result alone. -/
def attemptOutcome {α : Type} (push : Transport α) (notification : α)
    (c : Connection) : Outcome :=
  match push notification c with
  | .delivered => .sent
  | .failed sc => if sc = some 410 then .failedGone else .failedOther sc

/-- `sendToConnections` (lines 195-225): one task per target connection,
each posting the serialised notification to that connection's endpoint;
a task whose error has `statusCode === 410` calls `cleanupConnection`
for its own connection; the call joins on `Promise.allSettled`, so it
returns only once every task has settled, with one settled outcome per
connection.  The registry effects of the concurrent tasks commute (each
deletes only its own key, and DynamoDB delete is idempotent), so they
are embedded as a left-to-right fold over the targets. -/
def sendToConnections {α : Type} (push : Transport α) (conns : List Connection)
    (notification : α) (reg : Registry) : List Outcome × Registry :=
  match conns with
  | [] => ([], reg)
  | c :: rest =>
    let o := attemptOutcome push notification c
    let reg1 := if o = .failedGone then cleanupConnection c.connectionId reg else reg
    let r := sendToConnections push rest notification reg1
    (o :: r.1, r.2)

/-- The topic list built by `notifyPartnerChangeByLocation`
(websocketService.js lines 55-60).  JS lowercases the city
(`city?.toLowerCase()`) but not the category, and a nullish city or
category renders as the literal text `undefined` inside the template
string. -/
def strToLower (s : String) : String :=
  ⟨s.data.map Char.toLower⟩

/-- Rendering of `city?.toLowerCase()` inside the template literal. -/
def cityPart (city : Option String) : String :=
  match city with
  | some c => strToLower c
  | none => "undefined"

/-- Rendering of `category` inside the template literal. -/
def categoryPart (category : Option String) : String :=
  category.getD "undefined"

/-- The four topics of `notifyPartnerChangeByLocation`. -/
def locationTopics (city category : Option String) : List String :=
  ["partners",
   "partners_" ++ cityPart city,
   "partners_" ++ categoryPart category,
   "partners_" ++ cityPart city ++ "_" ++ categoryPart category]

/-- The recipients of `notifyPartnerChangeByLocation` (lines 42-67): it
builds `locationTopics` and calls `broadcastToSubscribers`, which
resolves the targets with `getSubscriberConnections` and sends to
exactly those. -/
def notifyPartnerChangeByLocationTargets (city category : Option String)
    (reg : Registry) : List Connection :=
  getSubscriberConnections (locationTopics city category) reg

/-- JS `(m[k] || 0) + 1` on a plain object used as a counter map,
modelled as an association list in key-insertion order. -/
def incr (m : List (String × Nat)) (k : String) : List (String × Nat) :=
  match m with
  | [] => [(k, 1)]
  | (k', v) :: rest => if k' = k then (k', v + 1) :: rest else (k', v) :: incr rest k

/-- Reading `m[k] || 0` from the counter map. -/
def lookupCount (m : List (String × Nat)) (k : String) : Nat :=
  match m with
  | [] => 0
  | (k', v) :: rest => if k' = k then v else lookupCount rest k

/-- The snapshot returned by `getConnectionStats` on its success path.
The wall-clock `timestamp` field of the JS object is not modelled. -/
structure ConnectionStats where
  total : Nat
  byUser : List (String × Nat)
  byTopic : List (String × Nat)
deriving Repr, DecidableEq

/-- `getConnectionStats` (lines 247-274), success path: one pass over
the active connections bumps the owner bucket of each connection and
the bucket of each of its subscribed topics.  The single JS `forEach`
writes two independent objects, so it is embedded as two folds over the
same list. -/
def getConnectionStats (reg : Registry) : ConnectionStats :=
  let connections := getAllActiveConnections reg
  { total := connections.length
    byUser := connections.foldl (fun m c => incr m c.userId) []
    byTopic := connections.foldl (fun m c => (subsOrEmpty c).foldl incr m) [] }

/-- `getConnectionStats` with its try/catch: `scan` is the outcome of
the underlying registry read (`getAllActiveConnections`' DynamoDB
scan); if it throws, the catch block returns `null`, modelled `none`. -/
def getConnectionStatsE (scan : Except String Registry) : Option ConnectionStats :=
  match scan with
  | .error _ => none
  | .ok reg => some (getConnectionStats reg)

/-- Decoded JWT payload; the connect handler uses only `id`. -/
structure DecodedToken where
  id : String
deriving Repr, DecidableEq

/-- Whether `pat` starts the character list `cs`. -/
def listStartsWith : List Char → List Char → Bool
  | [], _ => true
  | _ :: _, [] => false
  | p :: ps, c :: cs => p == c && listStartsWith ps cs

/-- First-occurrence replacement over character lists. -/
def replaceFirstAux (pat rep : List Char) : List Char → List Char
  | [] => if listStartsWith pat [] then rep else []
  | c :: cs =>
    if listStartsWith pat (c :: cs) then rep ++ (c :: cs).drop pat.length
    else c :: replaceFirstAux pat rep cs

/-- JS `s.replace(pat, rep)` with a string pattern: replaces the first
occurrence only. -/
def replaceFirst (s pat rep : String) : String :=
  ⟨replaceFirstAux pat.data rep.data s.data⟩

/-- `verifyToken` (connectHandler.js lines 9-17): drops one `Bearer `
occurrence and verifies the result against the shared secret.
`jwt.verify` is an external call, modelled by the parameter `verify`:
`none` stands for any verification throw (malformed, bad signature,
expired). -/
def verifyToken (verify : String → Option DecodedToken) (token : String) :
    Option DecodedToken :=
  verify (replaceFirst token "Bearer " "")

/-- The `$connect` event as the handler reads it: `connectionId` plus
`requestContext.{domainName, stage}`, and the optional `token` query
parameter. -/
structure ConnectEvent where
  connectionId : String
  domainName : String
  stage : String
  token : Option String
deriving Repr, DecidableEq

/-- Observable result of the connect handler: the HTTP status code, the
rows put into the registry during the call, and whether the welcome
push was delivered. -/
structure HandlerResponse where
  statusCode : Nat
  writtenRows : List Connection
  welcomeDelivered : Bool
deriving Repr, DecidableEq

/-- `handler` (connectHandler.js lines 22-121).  A missing token — JS
also treats the empty string as missing (`if (!token)`) — or a failed
verification returns 401 with no registry write.  Otherwise the handler
puts one row with `status: 'connected'` and `ttl` 24 hours (86400
seconds) past `Date.now()`, attempts the welcome push, swallows any
welcome-push error, and returns 200.  `putOk` models the DynamoDB `put`
outcome (a throw is caught by the outer catch, which returns 500);
`welcomeOk` models the welcome `postToConnection` outcome; `nowMs` is
`Date.now()` in milliseconds. -/
def connectHandler (verify : String → Option DecodedToken)
    (putOk welcomeOk : Bool) (nowMs : Nat) (event : ConnectEvent) :
    HandlerResponse :=
  match event.token with
  | none => { statusCode := 401, writtenRows := [], welcomeDelivered := false }
  | some token =>
    if token = "" then
      { statusCode := 401, writtenRows := [], welcomeDelivered := false }
    else
      match verifyToken verify token with
      | none => { statusCode := 401, writtenRows := [], welcomeDelivered := false }
      | some decoded =>
        let connectionData : Connection :=
          { connectionId := event.connectionId
            userId := decoded.id
            domainName := event.domainName
            stage := event.stage
            connectedAt := nowMs
            ttl := nowMs / 1000 + 24 * 60 * 60
            status := "connected"
            lastActivity := nowMs
            subscriptions := none }
        if putOk then
          { statusCode := 200, writtenRows := [connectionData],
            welcomeDelivered := welcomeOk }
        else
          { statusCode := 500, writtenRows := [], welcomeDelivered := false }

end PerkUp

namespace PerkUp

/-- C3 support: Bool-level characterisation of the subscriber filter. -/
theorem mem_getSubscriberConnections (topics : List String) (reg : Registry)
    (c : Connection) :
    c ∈ getSubscriberConnections topics reg ↔
      c ∈ reg ∧ c.status = "connected" ∧ ∃ t ∈ topics, t ∈ subsOrEmpty c := by
  simp only [getSubscriberConnections, getAllActiveConnections, List.mem_filter,
    List.any_eq_true, List.contains, List.elem_iff, beq_iff_eq]
  tauto

end PerkUp

/-- **C3.** `getSubscriberConnections` returns exactly the live
(status `connected`) connections whose subscription set meets the given
topic set, and the empty topic set selects nothing, whatever the
registry holds. -/
theorem C3_topic_router_selects_intersecting (topics : List String)
    (reg : PerkUp.Registry) :
    (∀ c : PerkUp.Connection,
        c ∈ PerkUp.getSubscriberConnections topics reg ↔
          c ∈ reg ∧ c.status = "connected" ∧
            ∃ t ∈ topics, t ∈ PerkUp.subsOrEmpty c) ∧
      PerkUp.getSubscriberConnections [] reg = [] := by
  refine ⟨fun c => PerkUp.mem_getSubscriberConnections topics reg c, ?_⟩
  simp [PerkUp.getSubscriberConnections]

/-- **C7.** The reap operation is idempotent: deleting an id that is
already absent leaves the registry unchanged (and raises no error, the
model being total), so two successive calls have the effect of one. -/
theorem C7_cleanupConnection_idempotent (cid : String) (reg : PerkUp.Registry) :
    PerkUp.cleanupConnection cid (PerkUp.cleanupConnection cid reg) =
        PerkUp.cleanupConnection cid reg ∧
      ((∀ c ∈ reg, c.connectionId ≠ cid) → PerkUp.cleanupConnection cid reg = reg) := by
  constructor
  · simp [PerkUp.cleanupConnection, List.filter_filter]
  · intro habs
    simp only [PerkUp.cleanupConnection]
    exact List.filter_eq_self.mpr (fun c hc => by simp [habs c hc])

/-- Witness for C7 at a concrete registry not containing the reaped id. -/
theorem C7_cleanupConnection_idempotent_witness :
    PerkUp.cleanupConnection "X"
        (PerkUp.cleanupConnection "X"
          [{ connectionId := "A", userId := "u1", domainName := "d", stage := "s",
             connectedAt := 0, ttl := 86400, status := "connected", lastActivity := 0,
             subscriptions := none }]) =
      PerkUp.cleanupConnection "X"
        [{ connectionId := "A", userId := "u1", domainName := "d", stage := "s",
           connectedAt := 0, ttl := 86400, status := "connected", lastActivity := 0,
           subscriptions := none }] ∧
    PerkUp.cleanupConnection "X"
        [{ connectionId := "A", userId := "u1", domainName := "d", stage := "s",
           connectedAt := 0, ttl := 86400, status := "connected", lastActivity := 0,
           subscriptions := none }] =
      [{ connectionId := "A", userId := "u1", domainName := "d", stage := "s",
         connectedAt := 0, ttl := 86400, status := "connected", lastActivity := 0,
         subscriptions := none }] := by
  refine ⟨(C7_cleanupConnection_idempotent "X" _).1,
    (C7_cleanupConnection_idempotent "X" _).2 ?_⟩
  intro c hc
  simp only [List.mem_singleton] at hc
  subst hc
  decide

namespace PerkUp

/-- The outcome list of a send call is the map of `attemptOutcome` over
the targets, whatever the starting registry. -/
theorem sendToConnections_fst {α : Type} (push : Transport α) (notification : α)
    (conns : List Connection) (reg : Registry) :
    (sendToConnections push conns notification reg).1 =
      conns.map (attemptOutcome push notification) := by
  induction conns generalizing reg with
  | nil => rfl
  | cons c rest ih => simp [sendToConnections, ih]

/-- The registry after a send call is the starting registry minus
exactly the rows whose `connectionId` is that of a target whose attempt
settled "gone". -/
theorem sendToConnections_snd {α : Type} (push : Transport α) (notification : α)
    (conns : List Connection) (reg : Registry) :
    (sendToConnections push conns notification reg).2 =
      reg.filter (fun r => !(conns.any (fun c =>
        (attemptOutcome push notification c == .failedGone) &&
          (c.connectionId == r.connectionId)))) := by
  induction conns generalizing reg with
  | nil => simp [sendToConnections]
  | cons c rest ih =>
    simp only [sendToConnections]
    by_cases h : attemptOutcome push notification c = .failedGone
    · rw [if_pos h, ih, cleanupConnection, List.filter_filter]
      refine List.filter_congr (fun r _ => ?_)
      rw [Bool.eq_iff_iff]
      by_cases hid : c.connectionId = r.connectionId
      · simp [h, hid]
      · simp [h, hid, Ne.symm hid]
    · rw [if_neg h, ih]
      refine List.filter_congr (fun r _ => ?_)
      rw [Bool.eq_iff_iff]
      simp [h]

end PerkUp

/-- **C1.** One send call issues exactly one push attempt per target
connection and, joining on settle-all, yields one settled outcome per
target: the outcome list is precisely the per-connection map of
`attemptOutcome`, so it has length N and each entry is a function of
that connection's own push result alone — no attempt's failure removes
or alters the outcome of any other attempt. -/
theorem C1_send_settles_all_outcomes {α : Type} (push : PerkUp.Transport α)
    (notification : α) (conns : List PerkUp.Connection) (reg : PerkUp.Registry) :
    (PerkUp.sendToConnections push conns notification reg).1 =
        conns.map (PerkUp.attemptOutcome push notification) ∧
      (PerkUp.sendToConnections push conns notification reg).1.length =
        conns.length := by
  refine ⟨PerkUp.sendToConnections_fst push notification conns reg, ?_⟩
  rw [PerkUp.sendToConnections_fst push notification conns reg]
  exact List.length_map conns _

/-- **C4.** Within one send call, a registry row is deleted if and only
if it is the row of a target connection whose push attempt settled with
status code 410 ("gone"); rows of targets that failed any other way, and
rows of non-targets, are left in place unchanged. -/
theorem C4_reap_iff_gone {α : Type} (push : PerkUp.Transport α)
    (notification : α) (conns : List PerkUp.Connection) (reg : PerkUp.Registry) :
    (PerkUp.sendToConnections push conns notification reg).2 =
        reg.filter (fun r => !(conns.any (fun c =>
          (PerkUp.attemptOutcome push notification c == .failedGone) &&
            (c.connectionId == r.connectionId)))) ∧
      ∀ r : PerkUp.Connection,
        (r ∈ (PerkUp.sendToConnections push conns notification reg).2 ↔
          r ∈ reg ∧ ∀ c ∈ conns,
            PerkUp.attemptOutcome push notification c = .failedGone →
              c.connectionId ≠ r.connectionId) := by
  refine ⟨PerkUp.sendToConnections_snd push notification conns reg, fun r => ?_⟩
  rw [PerkUp.sendToConnections_snd push notification conns reg]
  simp only [List.mem_filter, Bool.not_eq_true', List.any_eq_false,
    Bool.and_eq_true, beq_iff_eq, not_and, ne_eq]

/-- **C2.** With the registry write succeeding, an admission event whose
token verifies puts exactly one row — with `status = "connected"` and a
`ttl` equal to the admission time plus 24 hours (86400 seconds) — and
returns 200; an event with a missing token, an empty token, or a token
whose verification fails puts no row and returns 401. -/
theorem C2_admission_gate (verify : String → Option PerkUp.DecodedToken)
    (putOk welcomeOk : Bool) (nowMs : Nat) (event : PerkUp.ConnectEvent) :
    (∀ token decoded, event.token = some token → token ≠ "" →
      PerkUp.verifyToken verify token = some decoded → putOk = true →
        PerkUp.connectHandler verify putOk welcomeOk nowMs event =
          { statusCode := 200
            writtenRows := [{ connectionId := event.connectionId
                              userId := decoded.id
                              domainName := event.domainName
                              stage := event.stage
                              connectedAt := nowMs
                              ttl := nowMs / 1000 + 86400
                              status := "connected"
                              lastActivity := nowMs
                              subscriptions := none }]
            welcomeDelivered := welcomeOk }) ∧
    (event.token = none →
      PerkUp.connectHandler verify putOk welcomeOk nowMs event =
        { statusCode := 401, writtenRows := [], welcomeDelivered := false }) ∧
    (∀ token, event.token = some token →
      PerkUp.verifyToken verify token = none →
        PerkUp.connectHandler verify putOk welcomeOk nowMs event =
          { statusCode := 401, writtenRows := [], welcomeDelivered := false }) := by
  refine ⟨?_, ?_, ?_⟩
  · intro token decoded htok hne hv hput
    subst hput
    simp [PerkUp.connectHandler, htok, hne, hv]
  · intro htok
    simp [PerkUp.connectHandler, htok]
  · intro token htok hv
    by_cases hne : token = ""
    · simp [PerkUp.connectHandler, htok, hne]
    · simp [PerkUp.connectHandler, htok, hne, hv]

/-- Witness for C2 at a concrete verifier, token and event. -/
theorem C2_admission_gate_witness :
    PerkUp.connectHandler
        (fun s => if s = "tok" then some { id := "u1" } else none) true true
        1700000000000
        { connectionId := "CID", domainName := "d", stage := "s",
          token := some "Bearer tok" } =
      { statusCode := 200
        writtenRows := [{ connectionId := "CID", userId := "u1",
                          domainName := "d", stage := "s",
                          connectedAt := 1700000000000,
                          ttl := 1700000000000 / 1000 + 86400,
                          status := "connected",
                          lastActivity := 1700000000000,
                          subscriptions := none }]
        welcomeDelivered := true } ∧
      PerkUp.connectHandler
          (fun s => if s = "tok" then some { id := "u1" } else none) true true
          1700000000000
          { connectionId := "CID", domainName := "d", stage := "s",
            token := some "Bearer bad" } =
        { statusCode := 401, writtenRows := [], welcomeDelivered := false } := by
  constructor
  · exact (C2_admission_gate
      (fun s => if s = "tok" then some { id := "u1" } else none) true true
      1700000000000
      { connectionId := "CID", domainName := "d", stage := "s",
        token := some "Bearer tok" }).1
      "Bearer tok" { id := "u1" } rfl (by decide) (by decide) rfl
  · exact (C2_admission_gate
      (fun s => if s = "tok" then some { id := "u1" } else none) true true
      1700000000000
      { connectionId := "CID", domainName := "d", stage := "s",
        token := some "Bearer bad" }).2.2
      "Bearer bad" rfl (by decide)

/-- **C8.** When admission succeeds (valid token, registry write ok) but
the welcome push fails, the handler still returns 200 and the row it
wrote is identical to the one written when the welcome push succeeds:
welcome-push failure never rolls back or alters admission. -/
theorem C8_welcome_failure_no_rollback (verify : String → Option PerkUp.DecodedToken)
    (nowMs : Nat) (event : PerkUp.ConnectEvent) (token : String)
    (decoded : PerkUp.DecodedToken) (htok : event.token = some token)
    (hne : token ≠ "") (hv : PerkUp.verifyToken verify token = some decoded) :
    (PerkUp.connectHandler verify true false nowMs event).statusCode = 200 ∧
      (PerkUp.connectHandler verify true false nowMs event).writtenRows =
        (PerkUp.connectHandler verify true true nowMs event).writtenRows ∧
      (PerkUp.connectHandler verify true false nowMs event).writtenRows.length = 1 := by
  refine ⟨?_, ?_, ?_⟩ <;> simp [PerkUp.connectHandler, htok, hne, hv]

/-- Witness for C8 at a concrete verifier, token and event. -/
theorem C8_welcome_failure_no_rollback_witness :
    (PerkUp.connectHandler
        (fun s => if s = "tok" then some { id := "u1" } else none) true false
        1700000000000
        { connectionId := "CID", domainName := "d", stage := "s",
          token := some "Bearer tok" }).statusCode = 200 ∧
      (PerkUp.connectHandler
          (fun s => if s = "tok" then some { id := "u1" } else none) true false
          1700000000000
          { connectionId := "CID", domainName := "d", stage := "s",
            token := some "Bearer tok" }).writtenRows =
        (PerkUp.connectHandler
            (fun s => if s = "tok" then some { id := "u1" } else none) true true
            1700000000000
            { connectionId := "CID", domainName := "d", stage := "s",
              token := some "Bearer tok" }).writtenRows ∧
      (PerkUp.connectHandler
          (fun s => if s = "tok" then some { id := "u1" } else none) true false
          1700000000000
          { connectionId := "CID", domainName := "d", stage := "s",
            token := some "Bearer tok" }).writtenRows.length = 1 :=
  C8_welcome_failure_no_rollback
    (fun s => if s = "tok" then some { id := "u1" } else none)
    1700000000000
    { connectionId := "CID", domainName := "d", stage := "s",
      token := some "Bearer tok" }
    "Bearer tok" { id := "u1" } rfl (by decide) (by decide)

/-- **C5.** For every registry, the Paris/food partner-update broadcast
targets exactly the live connections subscribed to at least one of
`partners`, `partners_paris`, `partners_food`, `partners_paris_food`;
a connection subscribed only to `partners_lyon` is never targeted. -/
theorem C5_paris_food_targets (reg : PerkUp.Registry) :
    (∀ c : PerkUp.Connection,
        c ∈ PerkUp.notifyPartnerChangeByLocationTargets
              (some "Paris") (some "food") reg ↔
          c ∈ reg ∧ c.status = "connected" ∧
            ∃ t ∈ ["partners", "partners_paris", "partners_food",
                   "partners_paris_food"], t ∈ PerkUp.subsOrEmpty c) ∧
      ∀ c : PerkUp.Connection, PerkUp.subsOrEmpty c = ["partners_lyon"] →
        c ∉ PerkUp.notifyPartnerChangeByLocationTargets
              (some "Paris") (some "food") reg := by
  have htopics : PerkUp.locationTopics (some "Paris") (some "food") =
      ["partners", "partners_paris", "partners_food", "partners_paris_food"] := by
    decide
  have hmem : ∀ c : PerkUp.Connection,
      c ∈ PerkUp.notifyPartnerChangeByLocationTargets
            (some "Paris") (some "food") reg ↔
        c ∈ reg ∧ c.status = "connected" ∧
          ∃ t ∈ ["partners", "partners_paris", "partners_food",
                 "partners_paris_food"], t ∈ PerkUp.subsOrEmpty c := by
    intro c
    rw [PerkUp.notifyPartnerChangeByLocationTargets, htopics]
    exact PerkUp.mem_getSubscriberConnections _ reg c
  refine ⟨hmem, fun c hsubs hin => ?_⟩
  rcases ((hmem c).mp hin).2.2 with ⟨t, htin, hts⟩
  rw [hsubs] at hts
  simp only [List.mem_singleton] at hts
  subst hts
  simp at htin

namespace PerkUp

/-- Bumping key `k` raises exactly the `k` bucket by one. -/
theorem lookupCount_incr (m : List (String × Nat)) (k k' : String) :
    lookupCount (incr m k) k' = lookupCount m k' + if k = k' then 1 else 0 := by
  induction m with
  | nil => by_cases h : k = k' <;> simp [incr, lookupCount, h]
  | cons a rest ih =>
    obtain ⟨ka, va⟩ := a
    by_cases hak : ka = k
    · subst hak
      by_cases hk' : ka = k' <;> simp [incr, lookupCount, hk']
    · by_cases hk' : ka = k'
      · subst hk'
        have hkk : ¬ k = ka := fun h => hak h.symm
        simp [incr, lookupCount, hak, hkk]
      · simp [incr, lookupCount, hak, hk', ih]

/-- Folding a key list into the counter map adds each key's
multiplicity to its bucket. -/
theorem lookupCount_foldl_incr (keys : List String) (m : List (String × Nat))
    (k : String) :
    lookupCount (keys.foldl incr m) k = lookupCount m k + keys.count k := by
  induction keys generalizing m with
  | nil => simp
  | cons a rest ih =>
    simp only [List.foldl_cons, ih, lookupCount_incr, List.count_cons]
    by_cases h : a = k <;> simp [h] <;> omega

/-- The owner fold of `getConnectionStats` counts each owner's
connections. -/
theorem lookupCount_byUser_fold (conns : List Connection)
    (m : List (String × Nat)) (u : String) :
    lookupCount (conns.foldl (fun m c => incr m c.userId) m) u =
      lookupCount m u + (conns.filter (fun c => c.userId == u)).length := by
  induction conns generalizing m with
  | nil => simp
  | cons c rest ih =>
    simp only [List.foldl_cons, ih, lookupCount_incr, List.filter_cons]
    by_cases h : c.userId = u <;> simp [h] <;> omega

/-- The topic fold of `getConnectionStats` adds, per connection, the
multiplicity of each subscribed topic. -/
theorem lookupCount_byTopic_fold (conns : List Connection)
    (m : List (String × Nat)) (t : String) :
    lookupCount (conns.foldl (fun m c => (subsOrEmpty c).foldl incr m) m) t =
      lookupCount m t + ((conns.map (fun c => (subsOrEmpty c).count t)).sum) := by
  induction conns generalizing m with
  | nil => simp
  | cons c rest ih =>
    simp only [List.foldl_cons, ih, lookupCount_foldl_incr, List.map_cons,
      List.sum_cons]
    omega

end PerkUp

/-- **C6.** The stats snapshot is the counting fold over the live
connections: `total` is the number of connected rows, each owner bucket
counts that owner's connections, and each topic bucket receives one
contribution per subscribed connection; on the registry
`{(u1,{partners}), (u1,{partners,c1}), (u2,{c1})}` this gives
`byUser = {u1: 2, u2: 1}`, `byTopic = {partners: 2, c1: 2}`,
`total = 3`. -/
theorem C6_stats_snapshot_counts (reg : PerkUp.Registry) :
    (PerkUp.getConnectionStats reg).total =
        (PerkUp.getAllActiveConnections reg).length ∧
      (∀ u, PerkUp.lookupCount (PerkUp.getConnectionStats reg).byUser u =
        ((PerkUp.getAllActiveConnections reg).filter
          (fun c => c.userId == u)).length) ∧
      (∀ t, PerkUp.lookupCount (PerkUp.getConnectionStats reg).byTopic t =
        ((PerkUp.getAllActiveConnections reg).map
          (fun c => (PerkUp.subsOrEmpty c).count t)).sum) ∧
      PerkUp.getConnectionStats
        [ { connectionId := "A", userId := "u1", domainName := "d", stage := "s",
            connectedAt := 0, ttl := 0, status := "connected", lastActivity := 0,
            subscriptions := some ["partners"] },
          { connectionId := "B", userId := "u1", domainName := "d", stage := "s",
            connectedAt := 0, ttl := 0, status := "connected", lastActivity := 0,
            subscriptions := some ["partners", "c1"] },
          { connectionId := "C", userId := "u2", domainName := "d", stage := "s",
            connectedAt := 0, ttl := 0, status := "connected", lastActivity := 0,
            subscriptions := some ["c1"] } ] =
        { total := 3, byUser := [("u1", 2), ("u2", 1)],
          byTopic := [("partners", 2), ("c1", 2)] } := by
  refine ⟨rfl, fun u => ?_, fun t => ?_, by decide⟩
  · simpa [PerkUp.getConnectionStats, PerkUp.lookupCount] using
      PerkUp.lookupCount_byUser_fold (PerkUp.getAllActiveConnections reg) [] u
  · simpa [PerkUp.getConnectionStats, PerkUp.lookupCount] using
      PerkUp.lookupCount_byTopic_fold (PerkUp.getAllActiveConnections reg) [] t

/-- **C9.** A row whose `subscriptions` attribute is absent behaves as
subscribed to nothing: the topic router never selects it, while the
stats fold still counts it in `total` and in its owner's bucket and
adds nothing to any topic bucket. -/
theorem C9_absent_subscriptions (reg : PerkUp.Registry) (topics : List String)
    (c : PerkUp.Connection) (hnone : c.subscriptions = none) :
    c ∉ PerkUp.getSubscriberConnections topics reg ∧
      (c.status = "connected" →
        (PerkUp.getConnectionStats (c :: reg)).total =
            (PerkUp.getConnectionStats reg).total + 1 ∧
          PerkUp.lookupCount (PerkUp.getConnectionStats (c :: reg)).byUser
              c.userId =
            PerkUp.lookupCount (PerkUp.getConnectionStats reg).byUser
              c.userId + 1 ∧
          ∀ t, PerkUp.lookupCount
              (PerkUp.getConnectionStats (c :: reg)).byTopic t =
            PerkUp.lookupCount (PerkUp.getConnectionStats reg).byTopic t) := by
  have hsubs : PerkUp.subsOrEmpty c = [] := by
    simp [PerkUp.subsOrEmpty, hnone]
  constructor
  · intro hmem
    rcases ((PerkUp.mem_getSubscriberConnections topics reg c).mp hmem).2.2
      with ⟨t, _, hts⟩
    rw [hsubs] at hts
    simp at hts
  · intro hstat
    have hactive : PerkUp.getAllActiveConnections (c :: reg) =
        c :: PerkUp.getAllActiveConnections reg := by
      simp [PerkUp.getAllActiveConnections, List.filter_cons, hstat]
    refine ⟨?_, ?_, fun t => ?_⟩
    · simp [PerkUp.getConnectionStats, hactive]
    · rw [show (PerkUp.getConnectionStats (c :: reg)).byUser =
          (PerkUp.getAllActiveConnections (c :: reg)).foldl
            (fun m c => PerkUp.incr m c.userId) [] from rfl,
        show (PerkUp.getConnectionStats reg).byUser =
          (PerkUp.getAllActiveConnections reg).foldl
            (fun m c => PerkUp.incr m c.userId) [] from rfl,
        PerkUp.lookupCount_byUser_fold, PerkUp.lookupCount_byUser_fold, hactive]
      simp
      omega
    · rw [show (PerkUp.getConnectionStats (c :: reg)).byTopic =
          (PerkUp.getAllActiveConnections (c :: reg)).foldl
            (fun m c => (PerkUp.subsOrEmpty c).foldl PerkUp.incr m) [] from rfl,
        show (PerkUp.getConnectionStats reg).byTopic =
          (PerkUp.getAllActiveConnections reg).foldl
            (fun m c => (PerkUp.subsOrEmpty c).foldl PerkUp.incr m) [] from rfl,
        PerkUp.lookupCount_byTopic_fold, PerkUp.lookupCount_byTopic_fold,
        hactive]
      simp [hsubs]

/-- Witness for C9: a connected row with no `subscriptions` attribute,
beside one subscribed row. -/
theorem C9_absent_subscriptions_witness :
    ({ connectionId := "N", userId := "u9", domainName := "d", stage := "s",
       connectedAt := 0, ttl := 0, status := "connected", lastActivity := 0,
       subscriptions := none } : PerkUp.Connection) ∉
        PerkUp.getSubscriberConnections ["partners"]
          [{ connectionId := "N", userId := "u9", domainName := "d", stage := "s",
             connectedAt := 0, ttl := 0, status := "connected", lastActivity := 0,
             subscriptions := none },
           { connectionId := "A", userId := "u1", domainName := "d", stage := "s",
             connectedAt := 0, ttl := 0, status := "connected", lastActivity := 0,
             subscriptions := some ["partners"] }] ∧
      (PerkUp.getConnectionStats
          ({ connectionId := "N", userId := "u9", domainName := "d", stage := "s",
             connectedAt := 0, ttl := 0, status := "connected", lastActivity := 0,
             subscriptions := none } ::
            [{ connectionId := "A", userId := "u1", domainName := "d", stage := "s",
               connectedAt := 0, ttl := 0, status := "connected", lastActivity := 0,
               subscriptions := some ["partners"] }])).total =
        (PerkUp.getConnectionStats
          [{ connectionId := "A", userId := "u1", domainName := "d", stage := "s",
             connectedAt := 0, ttl := 0, status := "connected", lastActivity := 0,
             subscriptions := some ["partners"] }]).total + 1 ∧
      PerkUp.lookupCount
          (PerkUp.getConnectionStats
            ({ connectionId := "N", userId := "u9", domainName := "d", stage := "s",
               connectedAt := 0, ttl := 0, status := "connected", lastActivity := 0,
               subscriptions := none } ::
              [{ connectionId := "A", userId := "u1", domainName := "d",
                 stage := "s", connectedAt := 0, ttl := 0, status := "connected",
                 lastActivity := 0, subscriptions := some ["partners"] }])).byUser
          "u9" =
        PerkUp.lookupCount
          (PerkUp.getConnectionStats
            [{ connectionId := "A", userId := "u1", domainName := "d",
               stage := "s", connectedAt := 0, ttl := 0, status := "connected",
               lastActivity := 0,
               subscriptions := some ["partners"] }]).byUser "u9" + 1 ∧
      PerkUp.lookupCount
          (PerkUp.getConnectionStats
            ({ connectionId := "N", userId := "u9", domainName := "d", stage := "s",
               connectedAt := 0, ttl := 0, status := "connected", lastActivity := 0,
               subscriptions := none } ::
              [{ connectionId := "A", userId := "u1", domainName := "d",
                 stage := "s", connectedAt := 0, ttl := 0, status := "connected",
                 lastActivity := 0, subscriptions := some ["partners"] }])).byTopic
          "partners" =
        PerkUp.lookupCount
          (PerkUp.getConnectionStats
            [{ connectionId := "A", userId := "u1", domainName := "d",
               stage := "s", connectedAt := 0, ttl := 0, status := "connected",
               lastActivity := 0,
               subscriptions := some ["partners"] }]).byTopic "partners" := by
  have h := C9_absent_subscriptions
    [{ connectionId := "A", userId := "u1", domainName := "d", stage := "s",
       connectedAt := 0, ttl := 0, status := "connected", lastActivity := 0,
       subscriptions := some ["partners"] }]
    ["partners"]
    { connectionId := "N", userId := "u9", domainName := "d", stage := "s",
      connectedAt := 0, ttl := 0, status := "connected", lastActivity := 0,
      subscriptions := none }
    rfl
  exact ⟨h.1, (h.2 rfl).1, (h.2 rfl).2.1, (h.2 rfl).2.2 "partners"⟩

/-- **C10.** The stats operation never propagates a registry read
failure: a failed scan yields `null` (`none`), and any non-null result
is the well-formed snapshot of the scanned registry. -/
theorem C10_stats_error_returns_null :
    (∀ e : String, PerkUp.getConnectionStatsE (Except.error e) = none) ∧
      ∀ (scan : Except String PerkUp.Registry) (s : PerkUp.ConnectionStats),
        PerkUp.getConnectionStatsE scan = some s →
          ∃ reg, scan = Except.ok reg ∧ s = PerkUp.getConnectionStats reg := by
  refine ⟨fun e => rfl, fun scan s h => ?_⟩
  cases scan with
  | error e => exact absurd h (by simp [PerkUp.getConnectionStatsE])
  | ok reg =>
    refine ⟨reg, rfl, ?_⟩
    have : some (PerkUp.getConnectionStats reg) = some s := h
    exact (Option.some.inj this).symm

/-- Witness for C10 at a failed scan and at a successful empty scan. -/
theorem C10_stats_error_returns_null_witness :
    PerkUp.getConnectionStatsE (Except.error "scan failed") = none ∧
      ∃ reg, (Except.ok ([] : PerkUp.Registry) :
            Except String PerkUp.Registry) = Except.ok reg ∧
        PerkUp.getConnectionStats ([] : PerkUp.Registry) =
          PerkUp.getConnectionStats reg :=
  ⟨C10_stats_error_returns_null.1 "scan failed",
   C10_stats_error_returns_null.2 (Except.ok ([] : PerkUp.Registry))
     (PerkUp.getConnectionStats ([] : PerkUp.Registry)) rfl⟩

/-- Witness for C5: a connection subscribed to `partners_paris` is
targeted, one subscribed only to `partners_lyon` is not. -/
theorem C5_paris_food_targets_witness :
    ({ connectionId := "P", userId := "u1", domainName := "d", stage := "s",
       connectedAt := 0, ttl := 0, status := "connected", lastActivity := 0,
       subscriptions := some ["partners_paris"] } : PerkUp.Connection) ∈
        PerkUp.notifyPartnerChangeByLocationTargets (some "Paris") (some "food")
          [{ connectionId := "P", userId := "u1", domainName := "d", stage := "s",
             connectedAt := 0, ttl := 0, status := "connected", lastActivity := 0,
             subscriptions := some ["partners_paris"] },
           { connectionId := "L", userId := "u2", domainName := "d", stage := "s",
             connectedAt := 0, ttl := 0, status := "connected", lastActivity := 0,
             subscriptions := some ["partners_lyon"] }] ∧
      ({ connectionId := "L", userId := "u2", domainName := "d", stage := "s",
         connectedAt := 0, ttl := 0, status := "connected", lastActivity := 0,
         subscriptions := some ["partners_lyon"] } : PerkUp.Connection) ∉
        PerkUp.notifyPartnerChangeByLocationTargets (some "Paris") (some "food")
          [{ connectionId := "P", userId := "u1", domainName := "d", stage := "s",
             connectedAt := 0, ttl := 0, status := "connected", lastActivity := 0,
             subscriptions := some ["partners_paris"] },
           { connectionId := "L", userId := "u2", domainName := "d", stage := "s",
             connectedAt := 0, ttl := 0, status := "connected", lastActivity := 0,
             subscriptions := some ["partners_lyon"] }] := by
  have h := C5_paris_food_targets
    [{ connectionId := "P", userId := "u1", domainName := "d", stage := "s",
       connectedAt := 0, ttl := 0, status := "connected", lastActivity := 0,
       subscriptions := some ["partners_paris"] },
     { connectionId := "L", userId := "u2", domainName := "d", stage := "s",
       connectedAt := 0, ttl := 0, status := "connected", lastActivity := 0,
       subscriptions := some ["partners_lyon"] }]
  refine ⟨(h.1 _).mpr ⟨by decide, rfl, "partners_paris", by decide, by decide⟩, ?_⟩
  exact h.2 _ rfl
